import Mathlib

/-
Shallow embedding of `src/client/src/pages/Dashboard.jsx` from the
face-recognition-attendance-system repository.

The component keeps six pieces of state (`stats`, `recentAttendance`,
`isLoading`, `refreshKey`, `timeSlots`, `selectedTimeSlot`), builds request
URLs from the selected time-slot filter, fetches data, derives a summary with
`calculateSummary`, and renders.  The asynchronous handlers are embedded as
pure functions taking the outcomes of the HTTP requests (`Except Unit _`)
and returning the new component state together with the list of toast
notifications emitted.  JavaScript `Set` insertion is modelled by
`jsSetAdd` (append if absent, matching JS insertion order), JS string
truthiness of optional fields by `truthyStr`, and JS numbers by `Rat`.
-/

namespace Dashboard

/-- The nested `student` object read from an attendance record
(`record.student.name`, `record.student.registrationNumber`). -/
structure StudentInfo where
  name : String
  registrationNumber : String
deriving DecidableEq, Repr

/-- An attendance record as consumed by the view (rows of the table):
`_id`, `student`, `createdAt`, optional `startTime`/`endTime`,
`verificationMethod`, `status`. -/
structure AttendanceRecord where
  recId : String
  student : StudentInfo
  createdAt : String
  startTime : Option String
  endTime : Option String
  verificationMethod : String
  status : String
deriving DecidableEq, Repr

/-- An element of the stats array returned by `/api/attendance/stats`:
a student identity, a numeric `presentPercentage`, and optional
`startTime`/`endTime` fields. -/
structure AttendanceStat where
  student : String
  presentPercentage : Rat
  startTime : Option String
  endTime : Option String
deriving DecidableEq, Repr

/-- The four-field summary object returned by `calculateSummary`. -/
structure Summary where
  totalStudents : Nat
  averageAttendance : Rat
  presentToday : Nat
  belowThreshold : Nat
deriving DecidableEq, Repr

/-- A toast notification emitted via `toast.success` / `toast.error`. -/
inductive Toast where
  | success (msg : String)
  | error (msg : String)
deriving DecidableEq, Repr

/-- The component state held in the six `useState` hooks. -/
structure DashState where
  stats : Option (List AttendanceStat)
  recentAttendance : List AttendanceRecord
  isLoading : Bool
  refreshKey : Nat
  timeSlots : List String
  selectedTimeSlot : String
deriving DecidableEq, Repr

/-- JavaScript truthiness of an optional string field: `undefined` and the
empty string are falsy, every other string is truthy. -/
def truthyStr : Option String → Bool
  | none => false
  | some s => s != ""

/-- JS `Set.add`: insert at the end if not already present
(JS sets preserve insertion order). -/
def jsSetAdd (s : List String) (a : String) : List String :=
  if a ∈ s then s else s ++ [a]

/-- The template literal `` `${startTime}-${endTime}` ``. -/
def slotLabel (startTime endTime : String) : String :=
  startTime ++ "-" ++ endTime

/-- One iteration of the `statsResponse.data.forEach` loop (lines 34-38):
`if (stat.startTime && stat.endTime) slots.add(...)`. -/
def slotStep (slots : List String) (stat : AttendanceStat) : List String :=
  if truthyStr stat.startTime && truthyStr stat.endTime then
    jsSetAdd slots (slotLabel (stat.startTime.getD "") (stat.endTime.getD ""))
  else slots

/-- Lines 33-39: build the `Set` of time-slot labels from the stats response
and convert it back to an array (`Array.from(slots)`). -/
def extractTimeSlots (data : List AttendanceStat) : List String :=
  data.foldl slotStep []

/-- Split a character list at every occurrence of `sep`, the list-of-chars
model of JS `String.prototype.split` with a single-character separator
(`"".split(sep)` is `[""]`, so the result is never empty). -/
def splitOnChar (sep : Char) : List Char → List (List Char)
  | [] => [[]]
  | c :: cs =>
    match splitOnChar sep cs with
    | [] => [[]]
    | cur :: rest => if c = sep then [] :: cur :: rest else (c :: cur) :: rest

/-- JS `s.split('-')`. -/
def jsSplitDash (s : String) : List String :=
  (splitOnChar '-' s.data).map String.mk

/-- `selectedTimeSlot.split('-')` destructured into `[startTime, endTime]`.
JS `split` always yields at least one piece; a missing second piece is the
value `undefined`, which stringifies to `"undefined"` in a template
literal. -/
def splitFilter (s : String) : String × String :=
  match jsSplitDash s with
  | [] => ("undefined", "undefined")
  | [a] => (a, "undefined")
  | a :: b :: _ => (a, b)

/-- Lines 23-27 (and 129/134): the stats request URL as a function of the
selected time-slot filter. -/
def statsUrl (selectedTimeSlot : String) : String :=
  if selectedTimeSlot ≠ "all" then
    "/api/attendance/stats?startTime=" ++ (splitFilter selectedTimeSlot).1
      ++ "&endTime=" ++ (splitFilter selectedTimeSlot).2
  else
    "/api/attendance/stats"

/-- Lines 42-47 (and 63-69, 128-135): the today's-records request URL as a
function of the selected time-slot filter and today's date string. -/
def attendanceUrl (selectedTimeSlot today : String) : String :=
  if selectedTimeSlot ≠ "all" then
    "/api/attendance/timeslot?date=" ++ today
      ++ "&startTime=" ++ (splitFilter selectedTimeSlot).1
      ++ "&endTime=" ++ (splitFilter selectedTimeSlot).2
  else
    "/api/attendance/date/" ++ today

/-- Lines 18-57, `fetchDashboardData`: set the loading flag, await the stats
request; on success store the stats and the extracted time slots, then await
the today's-records request and store it; any thrown error is caught once
(`toast.error`), and the loading flag is cleared in `finally`.  The two
request outcomes are passed in as `Except` values. -/
def fetchDashboardData (st : DashState)
    (statsRes : Except Unit (List AttendanceStat))
    (attRes : Except Unit (List AttendanceRecord)) :
    DashState × List Toast :=
  let st1 := { st with isLoading := true }
  match statsRes with
  | .error _ =>
      ({ st1 with isLoading := false }, [Toast.error "Failed to load dashboard data"])
  | .ok statsData =>
      let st2 := { st1 with stats := some statsData
                          , timeSlots := extractTimeSlots statsData }
      match attRes with
      | .error _ =>
          ({ st2 with isLoading := false }, [Toast.error "Failed to load dashboard data"])
      | .ok attData =>
          ({ st2 with recentAttendance := attData, isLoading := false }, [])

/-- Lines 62-79: one tick of the 30-second refresh interval.  On success it
stores the fetched records (`setRecentAttendance`); on failure it only logs
(`console.error`), with no toast and no state change. -/
def refreshTick (st : DashState)
    (res : Except Unit (List AttendanceRecord)) :
    DashState × List Toast :=
  match res with
  | .ok data => ({ st with recentAttendance := data }, [])
  | .error _ => (st, [])

/-- Lines 124-151, the refresh button's `onClick`: set the loading flag, bump
`refreshKey`, issue both requests via `Promise.all`; if both resolve, store
both arrays and `toast.success`; if either rejects, `toast.error` (and no
state array is touched, since the `.then` never runs); `finally` clears the
loading flag. -/
def manualRefresh (st : DashState)
    (statsRes : Except Unit (List AttendanceStat))
    (attRes : Except Unit (List AttendanceRecord)) :
    DashState × List Toast :=
  let st1 := { st with isLoading := true, refreshKey := st.refreshKey + 1 }
  match statsRes, attRes with
  | .ok statsData, .ok attData =>
      ({ st1 with stats := some statsData
                , recentAttendance := attData
                , isLoading := false },
       [Toast.success "Dashboard refreshed"])
  | _, _ =>
      ({ st1 with isLoading := false }, [Toast.error "Failed to refresh data"])

/-- Lines 86-114, `calculateSummary`: with null or empty stats return all
zeros; otherwise count unique students via a JS `Set`, average the
`presentPercentage` values with `reduce(...)/stats.length`, count entries
below 75, and take `presentToday` as the raw length of the records array. -/
def calculateSummary (stats : Option (List AttendanceStat))
    (recentAttendance : List AttendanceRecord) : Summary :=
  match stats with
  | none => { totalStudents := 0, averageAttendance := 0
            , presentToday := 0, belowThreshold := 0 }
  | some statsList =>
    if statsList.length = 0 then
      { totalStudents := 0, averageAttendance := 0
      , presentToday := 0, belowThreshold := 0 }
    else
      let uniqueStudents := (statsList.map (fun stat => stat.student)).foldl jsSetAdd []
      let averageAttendance :=
        statsList.foldl (fun acc stat => acc + stat.presentPercentage) 0
          / (statsList.length : Rat)
      let belowThreshold :=
        (statsList.filter (fun stat => decide (stat.presentPercentage < 75))).length
      let presentToday := recentAttendance.length
      { totalStudents := uniqueStudents.length
      , averageAttendance := averageAttendance
      , presentToday := presentToday
      , belowThreshold := belowThreshold }

/-- The injected auth-context user (`useAuth`), as read by this view. -/
structure User where
  role : String
deriving DecidableEq, Repr

/-- Line 400: the admin quick link is rendered exactly when
`user && user.role === 'admin'`. -/
def adminLinkVisible (user : Option User) : Bool :=
  match user with
  | none => false
  | some u => u.role == "admin"

/-- A sample component state used for concrete evaluations. -/
def sampleState : DashState :=
  { stats := none, recentAttendance := [], isLoading := false
  , refreshKey := 0, timeSlots := [], selectedTimeSlot := "all" }

/-- A sample attendance record used for concrete evaluations. -/
def sampleRecord : AttendanceRecord :=
  { recId := "r1", student := { name := "N", registrationNumber := "R" }
  , createdAt := "2026-10-11T08:00:00.000Z"
  , startTime := none, endTime := none
  , verificationMethod := "face", status := "present" }

/-! ### Helper lemmas about the JS `Set` model -/

theorem mem_jsSetAdd (s : List String) (a b : String) :
    b ∈ jsSetAdd s a ↔ b ∈ s ∨ b = a := by
  unfold jsSetAdd
  split
  · next h =>
    constructor
    · exact Or.inl
    · rintro (hb | rfl)
      · exact hb
      · exact h
  · simp

theorem nodup_jsSetAdd (s : List String) (a : String) (h : s.Nodup) :
    (jsSetAdd s a).Nodup := by
  unfold jsSetAdd
  split
  · exact h
  · next hna =>
    rw [List.nodup_append]
    refine ⟨h, List.nodup_singleton a, ?_⟩
    intro b hb hba
    rw [List.mem_singleton] at hba
    exact hna (hba ▸ hb)

theorem mem_foldl_jsSetAdd (l s : List String) (b : String) :
    b ∈ l.foldl jsSetAdd s ↔ b ∈ s ∨ b ∈ l := by
  induction l generalizing s with
  | nil => simp
  | cons a t ih =>
    rw [List.foldl_cons, ih, mem_jsSetAdd]
    simp [or_assoc]

theorem nodup_foldl_jsSetAdd (l s : List String) (h : s.Nodup) :
    (l.foldl jsSetAdd s).Nodup := by
  induction l generalizing s with
  | nil => exact h
  | cons a t ih => exact ih _ (nodup_jsSetAdd s a h)

theorem length_foldl_jsSetAdd (l : List String) :
    (l.foldl jsSetAdd []).length = l.toFinset.card := by
  have hset : (l.foldl jsSetAdd []).toFinset = l.toFinset := by
    ext b
    simp [List.mem_toFinset, mem_foldl_jsSetAdd]
  have hnd : (l.foldl jsSetAdd []).Nodup := nodup_foldl_jsSetAdd l [] List.nodup_nil
  rw [← List.toFinset_card_of_nodup hnd, hset]

theorem foldl_add_percentage (l : List AttendanceStat) (c : Rat) :
    l.foldl (fun acc stat => acc + stat.presentPercentage) c
      = c + (l.map (fun stat => stat.presentPercentage)).sum := by
  induction l generalizing c with
  | nil => simp
  | cons a t ih => simp [List.foldl_cons, ih, add_assoc]

/-! ### Helper lemmas about the time-slot extraction -/

theorem mem_foldl_slotStep (data : List AttendanceStat) (init : List String) (x : String) :
    x ∈ data.foldl slotStep init ↔
      x ∈ init ∨ ∃ stat ∈ data,
        (truthyStr stat.startTime && truthyStr stat.endTime) = true ∧
        slotLabel (stat.startTime.getD "") (stat.endTime.getD "") = x := by
  induction data generalizing init with
  | nil => simp
  | cons a t ih =>
    rw [List.foldl_cons, ih]
    by_cases h : (truthyStr a.startTime && truthyStr a.endTime) = true
    · simp only [slotStep, if_pos h, mem_jsSetAdd, List.mem_cons]
      constructor
      · rintro ((hx | rfl) | ⟨stat, hs, hg, hl⟩)
        · exact Or.inl hx
        · exact Or.inr ⟨a, Or.inl rfl, h, rfl⟩
        · exact Or.inr ⟨stat, Or.inr hs, hg, hl⟩
      · rintro (hx | ⟨stat, (rfl | hs), hg, hl⟩)
        · exact Or.inl (Or.inl hx)
        · exact Or.inl (Or.inr hl.symm)
        · exact Or.inr ⟨stat, hs, hg, hl⟩
    · simp only [slotStep, if_neg h, List.mem_cons]
      constructor
      · rintro (hx | ⟨stat, hs, hg, hl⟩)
        · exact Or.inl hx
        · exact Or.inr ⟨stat, Or.inr hs, hg, hl⟩
      · rintro (hx | ⟨stat, (rfl | hs), hg, hl⟩)
        · exact Or.inl hx
        · exact absurd hg h
        · exact Or.inr ⟨stat, hs, hg, hl⟩

theorem nodup_foldl_slotStep (data : List AttendanceStat) (init : List String)
    (h : init.Nodup) : (data.foldl slotStep init).Nodup := by
  induction data generalizing init with
  | nil => exact h
  | cons a t ih =>
    rw [List.foldl_cons]
    refine ih _ ?_
    unfold slotStep
    split
    · exact nodup_jsSetAdd _ _ h
    · exact h

theorem foldl_slotStep_filter (data : List AttendanceStat) (init : List String) :
    data.foldl slotStep init
      = (data.filter
          (fun stat => truthyStr stat.startTime && truthyStr stat.endTime)).foldl
          slotStep init := by
  induction data generalizing init with
  | nil => rfl
  | cons a t ih =>
    rw [List.foldl_cons, List.filter_cons]
    by_cases h : (truthyStr a.startTime && truthyStr a.endTime) = true
    · rw [if_pos h, List.foldl_cons, ih]
    · rw [if_neg h, ih]
      congr 1
      simp [slotStep, h]

theorem truthyStr_eq_true (o : Option String) :
    truthyStr o = true ↔ ∃ s, o = some s ∧ s ≠ "" := by
  cases o with
  | none => simp [truthyStr]
  | some s => simp [truthyStr]

theorem slotGuard_char (stat : AttendanceStat) (x : String) :
    ((truthyStr stat.startTime && truthyStr stat.endTime) = true ∧
      slotLabel (stat.startTime.getD "") (stat.endTime.getD "") = x) ↔
    ∃ a b, stat.startTime = some a ∧ stat.endTime = some b ∧
      a ≠ "" ∧ b ≠ "" ∧ x = a ++ "-" ++ b := by
  cases hs : stat.startTime with
  | none => simp [truthyStr]
  | some a =>
    cases he : stat.endTime with
    | none => simp [truthyStr]
    | some b =>
      simp only [truthyStr, Bool.and_eq_true, bne_iff_ne, Option.getD_some, slotLabel,
        Option.some.injEq]
      constructor
      · rintro ⟨⟨ha, hb⟩, rfl⟩
        exact ⟨a, b, rfl, rfl, ha, hb, rfl⟩
      · rintro ⟨a2, b2, rfl, rfl, ha, hb, rfl⟩
        exact ⟨⟨ha, hb⟩, rfl⟩

/-- Unfolding of `calculateSummary` on a non-empty stats array. -/
theorem calculateSummary_nonempty (stats : List AttendanceStat)
    (recs : List AttendanceRecord) (h : ¬ stats.length = 0) :
    calculateSummary (some stats) recs =
      { totalStudents := ((stats.map (fun stat => stat.student)).foldl jsSetAdd []).length
      , averageAttendance :=
          stats.foldl (fun acc stat => acc + stat.presentPercentage) 0 / (stats.length : Rat)
      , presentToday := recs.length
      , belowThreshold :=
          (stats.filter (fun stat => decide (stat.presentPercentage < 75))).length } := by
  simp only [calculateSummary, if_neg h]

/-! ### Claim theorems -/

/-- C1: for every non-empty stats array and any records array,
`calculateSummary` returns `totalStudents` equal to the number of distinct
`student` values, `averageAttendance` equal to the arithmetic mean of the
`presentPercentage` values, and `belowThreshold` equal to the number of
stats entries whose `presentPercentage` is strictly less than 75; in
particular on `[{A,50},{A,90},{B,60}]` it returns `totalStudents = 2`,
`averageAttendance = 200/3`, `belowThreshold = 2`. -/
theorem c1_calculateSummary_fields (stats : List AttendanceStat)
    (recs : List AttendanceRecord) (h : stats ≠ []) :
    (calculateSummary (some stats) recs).totalStudents
        = (stats.map (fun stat => stat.student)).toFinset.card
    ∧ (calculateSummary (some stats) recs).averageAttendance
        = (stats.map (fun stat => stat.presentPercentage)).sum / (stats.length : Rat)
    ∧ (calculateSummary (some stats) recs).belowThreshold
        = stats.countP (fun stat => decide (stat.presentPercentage < 75))
    ∧ (calculateSummary
        (some [⟨"A", 50, none, none⟩, ⟨"A", 90, none, none⟩, ⟨"B", 60, none, none⟩])
        recs).totalStudents = 2
    ∧ (calculateSummary
        (some [⟨"A", 50, none, none⟩, ⟨"A", 90, none, none⟩, ⟨"B", 60, none, none⟩])
        recs).averageAttendance = 200 / 3
    ∧ (calculateSummary
        (some [⟨"A", 50, none, none⟩, ⟨"A", 90, none, none⟩, ⟨"B", 60, none, none⟩])
        recs).belowThreshold = 2 := by
  have hlen : ¬ stats.length = 0 := by
    simpa [List.length_eq_zero] using h
  rw [calculateSummary_nonempty stats recs hlen]
  refine ⟨?_, ?_, ?_, rfl, ?_, rfl⟩
  · exact length_foldl_jsSetAdd _
  · rw [foldl_add_percentage stats 0, zero_add]
  · rw [List.countP_eq_length_filter]
  · norm_num [calculateSummary]

/-- Witness for C1 at the concrete stats array from the claim. -/
theorem c1_calculateSummary_fields_witness :
    (([⟨"A", 50, none, none⟩, ⟨"A", 90, none, none⟩, ⟨"B", 60, none, none⟩] :
        List AttendanceStat) ≠ [])
    ∧ (calculateSummary
        (some [⟨"A", 50, none, none⟩, ⟨"A", 90, none, none⟩, ⟨"B", 60, none, none⟩])
        []).totalStudents = 2
    ∧ (calculateSummary
        (some [⟨"A", 50, none, none⟩, ⟨"A", 90, none, none⟩, ⟨"B", 60, none, none⟩])
        []).averageAttendance = 200 / 3
    ∧ (calculateSummary
        (some [⟨"A", 50, none, none⟩, ⟨"A", 90, none, none⟩, ⟨"B", 60, none, none⟩])
        []).belowThreshold = 2 :=
  ⟨by decide,
   (c1_calculateSummary_fields
     [⟨"A", 50, none, none⟩, ⟨"A", 90, none, none⟩, ⟨"B", 60, none, none⟩]
     [] (by decide)).2.2.2.1,
   (c1_calculateSummary_fields
     [⟨"A", 50, none, none⟩, ⟨"A", 90, none, none⟩, ⟨"B", 60, none, none⟩]
     [] (by decide)).2.2.2.2.1,
   (c1_calculateSummary_fields
     [⟨"A", 50, none, none⟩, ⟨"A", 90, none, none⟩, ⟨"B", 60, none, none⟩]
     [] (by decide)).2.2.2.2.2⟩

/-- C2 (counterexample): with an empty stats array and a one-element records
array, `calculateSummary` returns `presentToday = 0`, not the length of the
records array, because of the all-zeros early return on empty stats. -/
theorem c2_presentToday_counterexample :
    ¬ ((calculateSummary (some []) [sampleRecord]).presentToday
        = ([sampleRecord] : List AttendanceRecord).length) := by
  decide

/-- C2 (amended): when the stats array is non-empty, `presentToday` is the
raw length of the records array (no deduplication, no status filtering);
when the stats array is absent or empty, the early return makes
`presentToday = 0` whatever the records array is. -/
theorem c2_presentToday_amended (stats : List AttendanceStat)
    (recs : List AttendanceRecord) :
    (stats ≠ [] → (calculateSummary (some stats) recs).presentToday = recs.length)
    ∧ (calculateSummary (some []) recs).presentToday = 0
    ∧ (calculateSummary none recs).presentToday = 0 := by
  refine ⟨?_, rfl, rfl⟩
  intro h
  rw [calculateSummary_nonempty stats recs (by simpa [List.length_eq_zero] using h)]

/-- Witness for C2 (amended) at a concrete non-empty stats array. -/
theorem c2_presentToday_amended_witness :
    (calculateSummary (some [⟨"A", 50, none, none⟩]) [sampleRecord]).presentToday
      = ([sampleRecord] : List AttendanceRecord).length :=
  (c2_presentToday_amended [⟨"A", 50, none, none⟩] [sampleRecord]).1 (by decide)

/-- C3: on empty stats and records arrays (and on the initial `null` stats),
`calculateSummary` returns exactly all-zeros; being a total Lean function it
cannot throw. -/
theorem c3_calculateSummary_empty :
    calculateSummary (some []) []
      = { totalStudents := 0, averageAttendance := 0
        , presentToday := 0, belowThreshold := 0 }
    ∧ calculateSummary none []
      = { totalStudents := 0, averageAttendance := 0
        , presentToday := 0, belowThreshold := 0 } :=
  ⟨rfl, rfl⟩

/-- C4 (counterexample): the two-request fetch is not atomic: if the stats
request succeeds and the records request fails, the stats state has already
been replaced, so prior state other than the loading flag did change. -/
theorem c4_fetch_counterexample :
    ¬ ((fetchDashboardData sampleState
          (.ok [⟨"A", 50, some "09:00", some "10:00"⟩]) (.error ())).1.stats
        = sampleState.stats) := by
  decide

/-- C4 (amended): on any failure of the initial/filter-driven fetch exactly
one error notification is emitted and the loading flag ends up false; if the
stats request fails no other state changes; but if the stats request
succeeds and the records request fails, the stats and time-slot options have
already been replaced from the stats response, with only today's records
left untouched. -/
theorem c4_fetch_failure (st : DashState)
    (statsRes : Except Unit (List AttendanceStat))
    (attRes : Except Unit (List AttendanceRecord)) :
    (∀ e, statsRes = .error e →
      fetchDashboardData st statsRes attRes
        = ({ st with isLoading := false },
           [Toast.error "Failed to load dashboard data"]))
    ∧ (∀ d e, statsRes = .ok d → attRes = .error e →
      fetchDashboardData st statsRes attRes
        = ({ st with stats := some d
                   , timeSlots := extractTimeSlots d
                   , isLoading := false },
           [Toast.error "Failed to load dashboard data"])) := by
  constructor
  · rintro e rfl
    rfl
  · rintro d e rfl rfl
    rfl

/-- Witness for C4 (amended) at concrete request outcomes. -/
theorem c4_fetch_failure_witness :
    fetchDashboardData sampleState (.error ()) (.ok [])
      = ({ sampleState with isLoading := false },
         [Toast.error "Failed to load dashboard data"])
    ∧ fetchDashboardData sampleState
        (.ok [⟨"A", 50, some "09:00", some "10:00"⟩]) (.error ())
      = ({ sampleState with
            stats := some [⟨"A", 50, some "09:00", some "10:00"⟩]
          , timeSlots := extractTimeSlots [⟨"A", 50, some "09:00", some "10:00"⟩]
          , isLoading := false },
         [Toast.error "Failed to load dashboard data"]) :=
  ⟨(c4_fetch_failure sampleState (.error ()) (.ok [])).1 () rfl,
   (c4_fetch_failure sampleState (.ok [⟨"A", 50, some "09:00", some "10:00"⟩])
      (.error ())).2 [⟨"A", 50, some "09:00", some "10:00"⟩] () rfl rfl⟩

/-- C5: after a successful stats fetch the time-slot options are exactly the
distinct `startTime ++ "-" ++ endTime` strings formed from the
`(startTime, endTime)` pairs occurring (both fields held, non-empty) in the
latest stats response: the list has no duplicates and a string is a member
iff some stats entry carries that pair. -/
theorem c5_timeSlots_distinct (st : DashState) (data : List AttendanceStat)
    (attRes : Except Unit (List AttendanceRecord)) :
    (fetchDashboardData st (.ok data) attRes).1.timeSlots = extractTimeSlots data
    ∧ (extractTimeSlots data).Nodup
    ∧ ∀ x, x ∈ extractTimeSlots data ↔
        ∃ stat ∈ data, ∃ a b, stat.startTime = some a ∧ stat.endTime = some b ∧
          a ≠ "" ∧ b ≠ "" ∧ x = a ++ "-" ++ b := by
  refine ⟨?_, nodup_foldl_slotStep data [] List.nodup_nil, ?_⟩
  · cases attRes with
    | error e => rfl
    | ok d => rfl
  · intro x
    rw [extractTimeSlots, mem_foldl_slotStep]
    simp only [List.not_mem_nil, false_or]
    constructor
    · rintro ⟨stat, hs, hg, hl⟩
      exact ⟨stat, hs, (slotGuard_char stat x).mp ⟨hg, hl⟩⟩
    · rintro ⟨stat, hs, ha⟩
      obtain ⟨hg, hl⟩ := (slotGuard_char stat x).mpr ha
      exact ⟨stat, hs, hg, hl⟩

/-- Witness for C5: a concrete slot string is in the options list. -/
theorem c5_timeSlots_distinct_witness :
    "09:00-10:00" ∈ extractTimeSlots
      [⟨"A", 50, some "09:00", some "10:00"⟩, ⟨"B", 60, some "09:00", some "10:00"⟩] :=
  ((c5_timeSlots_distinct sampleState
      [⟨"A", 50, some "09:00", some "10:00"⟩, ⟨"B", 60, some "09:00", some "10:00"⟩]
      (.ok [])).2.2 "09:00-10:00").mpr
    ⟨⟨"A", 50, some "09:00", some "10:00"⟩, by decide, "09:00", "10:00",
      rfl, rfl, by decide, by decide, by decide⟩

/-- C6: URL construction is a function of the selected filter: for the
sentinel `"all"` the stats request has no query string and today's records
come from the date endpoint; for any other filter string, it is split on
`"-"` into `startTime` and `endTime` and both URLs carry them as query
parameters. -/
theorem c6_urls (filter today : String) :
    (filter = "all" →
      statsUrl filter = "/api/attendance/stats"
      ∧ attendanceUrl filter today = "/api/attendance/date/" ++ today)
    ∧ (filter ≠ "all" →
      statsUrl filter
        = "/api/attendance/stats?startTime=" ++ (splitFilter filter).1
          ++ "&endTime=" ++ (splitFilter filter).2
      ∧ attendanceUrl filter today
        = "/api/attendance/timeslot?date=" ++ today
          ++ "&startTime=" ++ (splitFilter filter).1
          ++ "&endTime=" ++ (splitFilter filter).2) := by
  constructor
  · rintro rfl
    exact ⟨by simp [statsUrl], by simp [attendanceUrl]⟩
  · intro h
    exact ⟨by rw [statsUrl, if_pos h], by rw [attendanceUrl, if_pos h]⟩

/-- Witness for C6 at the filters `"all"` and `"09:00-10:00"`. -/
theorem c6_urls_witness :
    statsUrl "all" = "/api/attendance/stats"
    ∧ attendanceUrl "all" "2026-10-11" = "/api/attendance/date/2026-10-11"
    ∧ statsUrl "09:00-10:00" = "/api/attendance/stats?startTime=09:00&endTime=10:00"
    ∧ attendanceUrl "09:00-10:00" "2026-10-11"
        = "/api/attendance/timeslot?date=2026-10-11&startTime=09:00&endTime=10:00" := by
  refine ⟨((c6_urls "all" "2026-10-11").1 rfl).1, ?_, ?_, ?_⟩
  · rw [((c6_urls "all" "2026-10-11").1 rfl).2]
    decide
  · rw [((c6_urls "09:00-10:00" "2026-10-11").2 (by decide)).1]
    decide
  · rw [((c6_urls "09:00-10:00" "2026-10-11").2 (by decide)).2]
    decide

/-- C7: a background-timer tick on success replaces only today's records,
leaving the stats array, time-slot options, selected filter and loading flag
unchanged and emitting no toast; on failure it changes no state at all and
emits no toast. -/
theorem c7_refreshTick_frame (st : DashState) (data : List AttendanceRecord) :
    refreshTick st (.ok data) = ({ st with recentAttendance := data }, [])
    ∧ (refreshTick st (.ok data)).1.stats = st.stats
    ∧ (refreshTick st (.ok data)).1.timeSlots = st.timeSlots
    ∧ (refreshTick st (.ok data)).1.selectedTimeSlot = st.selectedTimeSlot
    ∧ (refreshTick st (.ok data)).1.isLoading = st.isLoading
    ∧ (refreshTick st (.ok data)).1.recentAttendance = data
    ∧ (refreshTick st (.ok data)).2 = []
    ∧ refreshTick st (.error ()) = (st, []) :=
  ⟨rfl, rfl, rfl, rfl, rfl, rfl, rfl, rfl⟩

/-- C8: the manual refresh clears the loading flag however the two requests
settle; when both succeed it replaces both state arrays and emits the
success toast; when either fails it emits the error toast. -/
theorem c8_manualRefresh (st : DashState)
    (statsRes : Except Unit (List AttendanceStat))
    (attRes : Except Unit (List AttendanceRecord)) :
    (manualRefresh st statsRes attRes).1.isLoading = false
    ∧ (∀ d1 d2, statsRes = .ok d1 → attRes = .ok d2 →
        (manualRefresh st statsRes attRes).1.stats = some d1
        ∧ (manualRefresh st statsRes attRes).1.recentAttendance = d2
        ∧ (manualRefresh st statsRes attRes).2 = [Toast.success "Dashboard refreshed"])
    ∧ ((statsRes = .error () ∨ attRes = .error ()) →
        (manualRefresh st statsRes attRes).2 = [Toast.error "Failed to refresh data"]) := by
  refine ⟨?_, ?_, ?_⟩
  · cases statsRes <;> cases attRes <;> rfl
  · rintro d1 d2 rfl rfl
    exact ⟨rfl, rfl, rfl⟩
  · rintro (rfl | rfl)
    · cases attRes <;> rfl
    · cases statsRes <;> rfl

/-- Witness for C8 at concrete request outcomes. -/
theorem c8_manualRefresh_witness :
    (manualRefresh sampleState (.ok []) (.ok [sampleRecord])).1.isLoading = false
    ∧ (manualRefresh sampleState (.ok []) (.ok [sampleRecord])).1.recentAttendance
        = [sampleRecord]
    ∧ (manualRefresh sampleState (.ok []) (.ok [sampleRecord])).2
        = [Toast.success "Dashboard refreshed"]
    ∧ (manualRefresh sampleState (.error ()) (.ok [])).2
        = [Toast.error "Failed to refresh data"] :=
  ⟨(c8_manualRefresh sampleState (.ok []) (.ok [sampleRecord])).1,
   ((c8_manualRefresh sampleState (.ok []) (.ok [sampleRecord])).2.1
      [] [sampleRecord] rfl rfl).2.1,
   ((c8_manualRefresh sampleState (.ok []) (.ok [sampleRecord])).2.1
      [] [sampleRecord] rfl rfl).2.2,
   (c8_manualRefresh sampleState (.error ()) (.ok [])).2.2 (Or.inl rfl)⟩

/-- C9: the admin-only link is rendered iff the user object exists and its
role is exactly `"admin"`; for an absent user or any other role it is
absent. -/
theorem c9_adminLink (user : Option User) :
    adminLinkVisible user = true ↔ ∃ u, user = some u ∧ u.role = "admin" := by
  cases user with
  | none => simp [adminLinkVisible]
  | some u => simp [adminLinkVisible]

/-- Witness for C9 at concrete user values. -/
theorem c9_adminLink_witness :
    adminLinkVisible (some { role := "admin" }) = true
    ∧ adminLinkVisible (some { role := "teacher" }) = false
    ∧ adminLinkVisible none = false :=
  ⟨(c9_adminLink (some { role := "admin" })).mpr ⟨{ role := "admin" }, rfl, rfl⟩,
   by decide, by decide⟩

/-- C10: a stats entry contributes a slot string only if both its
`startTime` and `endTime` are present and truthy: dropping every entry that
fails the guard leaves the options list unchanged, and every member of the
options list is produced by some entry that passes the guard. -/
theorem c10_truthy_guard (data : List AttendanceStat) :
    extractTimeSlots data
      = extractTimeSlots
          (data.filter (fun stat => truthyStr stat.startTime && truthyStr stat.endTime))
    ∧ (∀ x, x ∈ extractTimeSlots data →
        ∃ stat ∈ data, (truthyStr stat.startTime && truthyStr stat.endTime) = true ∧
          slotLabel (stat.startTime.getD "") (stat.endTime.getD "") = x) := by
  constructor
  · exact foldl_slotStep_filter data []
  · intro x hx
    rw [extractTimeSlots, mem_foldl_slotStep] at hx
    simpa using hx

/-- Witness for C10: an entry with a missing `startTime` contributes
nothing, while a guarded entry produces its slot string. -/
theorem c10_truthy_guard_witness :
    ∃ stat ∈ ([⟨"A", 50, some "09:00", some "10:00"⟩, ⟨"C", 70, none, some "11:00"⟩] :
        List AttendanceStat),
      (truthyStr stat.startTime && truthyStr stat.endTime) = true ∧
      slotLabel (stat.startTime.getD "") (stat.endTime.getD "") = "09:00-10:00" :=
  (c10_truthy_guard
    [⟨"A", 50, some "09:00", some "10:00"⟩, ⟨"C", 70, none, some "11:00"⟩]).2
    "09:00-10:00" (by decide)

end Dashboard
